import Mathlib

set_option maxRecDepth 10000

namespace GhShowActionsLog

/-! Shallow embedding of `gh-show-actions-log.ts`: the polling state machine,
run classification, duration formatting, and the failure-log aggregation
pipeline, translated from the source.  External collaborators (the `gh` CLI,
`git`, JavaScript `Date` parsing) appear as oracle parameters. -/

/-- Result of `Util.execCommand`: `ok` carries the trimmed stdout of the
command, `err` carries the non-zero exit code of a failed command. -/
inductive ExecCommandResult where
  | ok (result : String)
  | err (code : Nat)
deriving Repr, DecidableEq

/-- One workflow-run record, as selected by the `--json` field list of
`gh run list` in `GhCli.listAllRuns`.  `conclusion`, `startedAt`, `updatedAt`
are nullable in the JSON payload. -/
structure Run where
  databaseId : Nat
  workflowName : String
  event : String
  status : String
  conclusion : Option String
  startedAt : Option String
  updatedAt : Option String
deriving Repr, DecidableEq

/-- One failed-job record `{name, databaseId}` as produced by
`GhCli.getFailedJobsFromRun`. -/
structure Job where
  name : String
  databaseId : Nat
deriving Repr, DecidableEq

/-- One line of output, tagged with the `Output` helper that produced it. -/
inductive OutEvent where
  | log (text : String)
  | warning (text : String)
  | success (text : String)
  | h2 (text : String)
  | h3 (text : String)
deriving Repr, DecidableEq

namespace colors

def bold : String := "\x1b[0;1m"

def red : String := "\x1b[0;31m"

def green : String := "\x1b[0;32m"

def yellow : String := "\x1b[1;33m"

def blue : String := "\x1b[0;34m"

def dim : String := "\x1b[2m"

def reset : String := "\x1b[0m"

end colors

/-- Constant `LIMIT = 1` from the source. -/
def LIMIT : Nat := 1

/-- Constant `TIMEOUT = 1200` (20 minutes in seconds) from the source. -/
def TIMEOUT : Nat := 1200

/-- Constant `INTERVAL = 10` (seconds) from the source. -/
def INTERVAL : Nat := 10

/-- JavaScript truthiness of a `string | null` value: `null` and the empty
string are falsy, every other string is truthy. -/
def jsTruthy : Option String → Bool
  | none => false
  | some s => s != ""

/-- The `switch (conclusion)` block of `Util.formatStatus`: the code path taken
whenever status is not `in_progress`.  A `null` conclusion (and any
unrecognized string) hits the `default` case. -/
def conclusionSwitch (conclusion : Option String) : String :=
  if conclusion = some ("success") then colors.green ++ "SUCCESS" ++ colors.reset
  else if conclusion = some ("failure") then colors.red ++ "FAILURE" ++ colors.reset
  else if conclusion = some ("cancelled") then colors.yellow ++ "CANCELLED" ++ colors.reset
  else if conclusion = some ("skipped") then colors.dim ++ "SKIPPED" ++ colors.reset
  else "UNKNOWN"

/-- `Util.formatStatus(status, conclusion)`: `in_progress` short-circuits to
RUNNING; every other status falls through to the conclusion switch. -/
def formatStatus (status : String) (conclusion : Option String) : String :=
  if status = "in_progress" then colors.blue ++ "RUNNING" ++ colors.reset
  else conclusionSwitch conclusion

/-- `Util.formatDuration(startedAt, updatedAt)`.  `getTime` stands for
JavaScript `new Date(s).getTime()` (milliseconds since epoch).  The guard
returning the sentinel, `if (!startedAt || !updatedAt)`, uses JS truthiness,
so `null` and the empty string both yield "N/A".  `Math.round(diffMs / 1000)` rounds
half toward positive infinity, which on integers is `(diffMs + 500).fdiv 1000`
(floor division). -/
def formatDuration (getTime : String → Int) (startedAt updatedAt : Option String) : String :=
  match startedAt, updatedAt with
  | some s, some u =>
      if s = "" ∨ u = "" then "N/A"
      else toString (Int.fdiv (getTime u - getTime s + 500) 1000) ++ "s"
  | _, _ => "N/A"

/-- `Util.parseJsonLines(output)`: empty output gives `[]`; otherwise split on
newlines, drop blank lines, and `JSON.parse` each line.  `parseLine` stands
for `JSON.parse` composed with the run-record shape. -/
def parseJsonLines (parseLine : String → Run) (output : String) : List Run :=
  if output = "" then []
  else (((output.splitOn ("\n")).filter (fun l => l.trim != "")).map parseLine)

/-- `GhCli.listAllRuns`: when the underlying `gh run list` command fails the
result is `[]` (`outputResult.ok ? parseJsonLines(...) : []`); when it
succeeds its stdout is parsed as JSON lines. -/
def listAllRuns (parseLine : String → Run) (outputResult : ExecCommandResult) : List Run :=
  match outputResult with
  | ExecCommandResult.ok r => parseJsonLines parseLine r
  | ExecCommandResult.err _ => []

/-- `GhCli.getJobLogsFromRepo`: the trimmed stdout when the `gh run view --log`
command succeeds, `null` when it fails. -/
def getJobLogsFromRepo (logsResult : ExecCommandResult) : Option String :=
  match logsResult with
  | ExecCommandResult.ok r => some r
  | ExecCommandResult.err _ => none

/-- Contract of the external `gh run list --limit n` command: the remote
returns at most `n` runs, most-recent-first (the truncation happens on the
gh side; the script only passes the limit flag). -/
def ghRunList (remote : List Run) (limit : Nat) : List Run := remote.take limit

/-- Oracle for the external world: `remote k` is the remote run list visible
to the k-th `gh run list` call of this invocation, `failedJobs` answers
`getFailedJobsFromRun` per run id, `jobLogExec` is the raw command result of
`gh run view --job --log` per job id, and `getTime` is JavaScript `Date`
parsing as used by `formatDuration`. -/
structure GhEnv where
  remote : Nat → List Run
  failedJobs : Nat → List Job
  jobLogExec : Nat → ExecCommandResult
  getTime : String → Int

/-- Result of the k-th `listAllRuns` call of an invocation. -/
def querySnapshot (env : GhEnv) (limit k : Nat) : List Run :=
  ghRunList (env.remote k) limit

/-- The filter predicate comparing `run.status` with `in_progress` used by
`processRunningRuns` on each queried snapshot. -/
def isInProgress (r : Run) : Bool := r.status == "in_progress"

/-- Result of the poll loop: the snapshots queried, in order, and the final
value of `elapsed` (one sleep of `INTERVAL` seconds per loop iteration that
saw an in-progress run, so `elapsed` is the total simulated sleep time). -/
structure PollResult where
  snapshots : List (List Run)
  elapsed : Nat
deriving Repr, DecidableEq

/-- The `while (elapsed < TIMEOUT)` loop of `ShowLogAction.processRunningRuns`:
query the runs, stop when no run is in progress, otherwise sleep `interval`
seconds and add it to `elapsed`.  `fuel` bounds the recursion; since `elapsed`
grows by `interval ≥ 1` on every iteration taken while `elapsed < timeout`,
any fuel of at least `timeout + 1` is never exhausted (see
`pollGo_fuel_succ`). -/
def pollGo (query : Nat → List Run) (timeout interval : Nat) :
    Nat → Nat → Nat → List (List Run) → PollResult
  | 0, _, elapsed, acc => { snapshots := acc.reverse, elapsed := elapsed }
  | fuel + 1, k, elapsed, acc =>
      if elapsed < timeout then
        if ((query k).filter isInProgress).length = 0 then
          { snapshots := ((query k) :: acc).reverse, elapsed := elapsed }
        else
          pollGo query timeout interval fuel (k + 1) (elapsed + interval) ((query k) :: acc)
      else
        { snapshots := acc.reverse, elapsed := elapsed }

/-- `ShowLogAction.processRunningRuns(repo, limit, commitSha)`: the poll loop
run with the source constants `TIMEOUT` and `INTERVAL`, starting from
`elapsed = 0`. -/
def processRunningRuns (env : GhEnv) (limit : Nat) : PollResult :=
  pollGo (querySnapshot env limit) TIMEOUT INTERVAL (TIMEOUT + 1) 0 0 []

/-- The `if (elapsed >= TIMEOUT)` check that emits the
"Timeout reached" warning after the poll loop. -/
def timeoutWarningEmitted (env : GhEnv) (limit : Nat) : Bool :=
  decide (TIMEOUT ≤ (processRunningRuns env limit).elapsed)

/-- `ShowLogAction.displayRunSummary(runs)`: the success banner for an empty
list, otherwise one formatted line per run, in order. -/
def displayRunSummary (getTime : String → Int) (runs : List Run) : List OutEvent :=
  if runs = [] then [OutEvent.success ("No workflow runs found")]
  else runs.map (fun run =>
    OutEvent.log ("- " ++ formatStatus run.status run.conclusion ++ ": " ++
      run.workflowName ++ " / " ++ run.event ++ " (" ++
      formatDuration getTime run.startedAt run.updatedAt ++ ")"))

/-- The `if (logs) { ... } else { ... }` block inside the job loop of
`processFailedRuns`: by JS truthiness an absent (`null`) log AND an
empty-string log both take the warning branch; only a non-empty log is
printed as content. -/
def logBlock (jobId : Nat) : Option String → List OutEvent
  | some s =>
      if s = "" then [OutEvent.warning ("Could not fetch logs for job " ++ toString jobId)]
      else [OutEvent.log s, OutEvent.log ""]
  | none => [OutEvent.warning ("Could not fetch logs for job " ++ toString jobId)]

/-- The body of the `for (const job of jobs)` loop in
`ShowLogAction.processFailedRuns`: job header, opening delimiter, log block,
closing delimiter. -/
def processJob (env : GhEnv) (job : Job) : List OutEvent :=
  [OutEvent.h3 ("Failed Job: " ++ job.name ++ " (id: " ++ toString job.databaseId ++ ")"),
   OutEvent.log ("`````")] ++
  logBlock job.databaseId (getJobLogsFromRepo (env.jobLogExec job.databaseId)) ++
  [OutEvent.log ("`````"), OutEvent.log ""]

/-- The `for (const job of jobs)` loop itself, job by job in order. -/
def jobsTrace (env : GhEnv) : List Job → List OutEvent
  | [] => []
  | j :: js => processJob env j ++ jobsTrace env js

/-- The body of the `for (const run of failedRuns)` loop in
`ShowLogAction.processFailedRuns`: run header, then either the
"No failed jobs found" warning (`continue`) or the per-job traces followed by
the closing warning. -/
def processRun (env : GhEnv) (run : Run) : List OutEvent :=
  [OutEvent.h2 ("Failed run for workflow \x27" ++ run.workflowName ++
      "\x27 (run ID: " ++ toString run.databaseId ++ ")"),
   OutEvent.log ""] ++
  (if env.failedJobs run.databaseId = [] then
    [OutEvent.warning ("No failed jobs found for this run."), OutEvent.log ""]
  else
    jobsTrace env (env.failedJobs run.databaseId) ++
      [OutEvent.warning ("Workflow run failed, see logs above for details.")])

/-- `ShowLogAction.processFailedRuns(repo, failedRuns)`: the runs are processed
strictly in the supplied order, each contributing its own trace. -/
def processFailedRuns (env : GhEnv) : List Run → List OutEvent
  | [] => []
  | r :: rest => processRun env r ++ processFailedRuns env rest

/-- The final `GhCli.listAllRuns(repo, LIMIT, commitSha)` call of `main`
(line 226): it is the query issued right after the poll loop, so its query
index is the number of snapshots the loop consumed. -/
def lastSnapshot (env : GhEnv) : List Run :=
  querySnapshot env LIMIT (processRunningRuns env LIMIT).snapshots.length

/-- All `gh run list` snapshots one invocation of `main` observes: the poll
snapshots of the loop followed by the final summary snapshot.  Every call passes
the constant `LIMIT`. -/
def mainRunQueries (env : GhEnv) : List (List Run) :=
  (processRunningRuns env LIMIT).snapshots ++ [lastSnapshot env]

/-- Trace and exit code of the tail of `ShowLogAction.main` (lines 222-238):
poll, optional timeout warning, summary of a fresh snapshot, then either
`process.exit(0)` when no run has conclusion `failure`, or
`processFailedRuns` after which `main` returns and the process exits
normally — also with code 0 (the source contains no non-zero exit on this
path). -/
def mainTail (env : GhEnv) : List OutEvent × Nat :=
  let allRuns := lastSnapshot env
  let failedRuns := allRuns.filter (fun r => r.conclusion == some ("failure"))
  let pre :=
    (if timeoutWarningEmitted env LIMIT then
      [OutEvent.warning ("Timeout reached. Workflow may still be running.")]
    else []) ++
    displayRunSummary env.getTime allRuns
  if failedRuns = [] then (pre, 0)
  else (pre ++ processFailedRuns env failedRuns, 0)

/-- A completed run whose conclusion is failure, for exercising the
failed-run path of `main`. -/
def failedRun : Run :=
  { databaseId := 7, workflowName := "ci", event := "push", status := "completed",
    conclusion := some ("failure"), startedAt := some ("2024-01-01T00:00:00Z"),
    updatedAt := some ("2024-01-01T00:01:00Z") }

/-- Environment in which the commit always has exactly one failed run. -/
def envFail : GhEnv :=
  { remote := fun _ => [failedRun],
    failedJobs := fun _ => [{ name := "test", databaseId := 99 }],
    jobLogExec := fun _ => ExecCommandResult.ok ("error: assertion failed"),
    getTime := fun _ => 0 }

/-- Environment in which every run-list query returns the empty sequence. -/
def env20 : GhEnv :=
  { remote := fun _ => [],
    failedJobs := fun _ => [],
    jobLogExec := fun _ => ExecCommandResult.err 1,
    getTime := fun _ => 0 }

/-- A run that is already completed successfully. -/
def doneRun : Run :=
  { databaseId := 3, workflowName := "ci", event := "push", status := "completed",
    conclusion := some ("success"), startedAt := none, updatedAt := none }

/-- Environment in which the first query already returns a completed run. -/
def env21 : GhEnv :=
  { remote := fun _ => [doneRun],
    failedJobs := fun _ => [],
    jobLogExec := fun _ => ExecCommandResult.err 1,
    getTime := fun _ => 0 }

/-- A run that is still queued: status `queued`, no conclusion yet. -/
def queuedRun : Run :=
  { databaseId := 1, workflowName := "ci", event := "push", status := "queued",
    conclusion := none, startedAt := none, updatedAt := none }

/-- Environment in which the commit always has exactly one queued run. -/
def envQ : GhEnv :=
  { remote := fun _ => [queuedRun],
    failedJobs := fun _ => [],
    jobLogExec := fun _ => ExecCommandResult.err 1,
    getTime := fun _ => 0 }

/-- A failed job whose log fetch succeeds but returns empty output. -/
def jobE : Job := { name := "build", databaseId := 42 }

/-- Environment in which the log command for every job succeeds with empty
(post-trim) output. -/
def envE5 : GhEnv :=
  { remote := fun _ => [],
    failedJobs := fun _ => [jobE],
    jobLogExec := fun _ => ExecCommandResult.ok (""),
    getTime := fun _ => 0 }

/-- A failed run used to exercise the aggregator loop. -/
def runW6 : Run :=
  { databaseId := 5, workflowName := "ci", event := "push", status := "completed",
    conclusion := some ("failure"), startedAt := none, updatedAt := none }

/-- A failed job whose log command fails. -/
def jobW6 : Job := { name := "lint", databaseId := 13 }

/-- Environment in which failed-job queries return nothing and log commands
fail. -/
def envW6 : GhEnv :=
  { remote := fun _ => [],
    failedJobs := fun _ => [],
    jobLogExec := fun _ => ExecCommandResult.err 2,
    getTime := fun _ => 0 }

/-- A run that stays in progress forever. -/
def busyRun : Run :=
  { databaseId := 9, workflowName := "ci", event := "push", status := "in_progress",
    conclusion := none, startedAt := none, updatedAt := none }

/-- Environment in which every query reports the run still in progress, so the
poll loop can only stop via its timeout ceiling. -/
def envT : GhEnv :=
  { remote := fun _ => [busyRun],
    failedJobs := fun _ => [],
    jobLogExec := fun _ => ExecCommandResult.err 1,
    getTime := fun _ => 0 }

/-- Two completed runs on the same commit, to exercise truncation by LIMIT. -/
def runA10 : Run :=
  { databaseId := 21, workflowName := "ci", event := "push", status := "completed",
    conclusion := some ("success"), startedAt := none, updatedAt := none }

/-- Second of the two runs; never survives the `--limit 1` truncation. -/
def runB10 : Run :=
  { databaseId := 22, workflowName := "docs", event := "push", status := "completed",
    conclusion := some ("success"), startedAt := none, updatedAt := none }

/-- Environment in which the commit has two runs remotely. -/
def envW10 : GhEnv :=
  { remote := fun _ => [runA10, runB10],
    failedJobs := fun _ => [],
    jobLogExec := fun _ => ExecCommandResult.err 1,
    getTime := fun _ => 0 }

/-- A dummy parsed run record, standing in for `JSON.parse` output where the
parse result is irrelevant. -/
def runDummy : Run :=
  { databaseId := 0, workflowName := "w", event := "push", status := "completed",
    conclusion := none, startedAt := none, updatedAt := none }

/-- One unfolding step of the loop body, for rewriting at concrete fuel. -/
theorem pollGo_step (query : Nat → List Run) (timeout interval fuel k elapsed : Nat)
    (acc : List (List Run)) :
    pollGo query timeout interval (fuel + 1) k elapsed acc =
      if elapsed < timeout then
        if ((query k).filter isInProgress).length = 0 then
          { snapshots := ((query k) :: acc).reverse, elapsed := elapsed }
        else
          pollGo query timeout interval fuel (k + 1) (elapsed + interval) ((query k) :: acc)
      else
        { snapshots := acc.reverse, elapsed := elapsed } := rfl

/-- The poll loop never drives `elapsed` past `timeout + interval`: `elapsed`
only grows, by `interval`, on iterations entered while `elapsed < timeout`. -/
theorem pollGo_elapsed_le (query : Nat → List Run) (timeout interval : Nat) :
    ∀ (fuel k elapsed : Nat) (acc : List (List Run)), elapsed ≤ timeout + interval →
      (pollGo query timeout interval fuel k elapsed acc).elapsed ≤ timeout + interval := by
  intro fuel
  induction fuel with
  | zero =>
      intro k elapsed acc h
      simpa [pollGo] using h
  | succ fuel ih =>
      intro k elapsed acc h
      by_cases h1 : elapsed < timeout
      · by_cases h2 : ((query k).filter isInProgress).length = 0
        · simpa [pollGo, h1, h2] using h
        · simp only [pollGo, if_pos h1, if_neg h2]
          exact ih (k + 1) (elapsed + interval) _ (by omega)
      · simpa [pollGo, h1] using h

/-- The accumulator of already-taken snapshots only ever grows. -/
theorem pollGo_snapshots_length (query : Nat → List Run) (timeout interval : Nat) :
    ∀ (fuel k elapsed : Nat) (acc : List (List Run)),
      acc.length ≤ (pollGo query timeout interval fuel k elapsed acc).snapshots.length := by
  intro fuel
  induction fuel with
  | zero => intro k elapsed acc; simp [pollGo]
  | succ fuel ih =>
      intro k elapsed acc
      by_cases h1 : elapsed < timeout
      · by_cases h2 : ((query k).filter isInProgress).length = 0
        · simp [pollGo, h1, h2]
        · simp only [pollGo, if_pos h1, if_neg h2]
          have h3 := ih (k + 1) (elapsed + interval) ((query k) :: acc)
          simp only [List.length_cons] at h3
          omega
      · simp [pollGo, h1]

/-- Every snapshot the loop returns is either carried in from the accumulator
or is the result of some query. -/
theorem pollGo_snapshots_mem (query : Nat → List Run) (timeout interval : Nat) :
    ∀ (fuel k elapsed : Nat) (acc : List (List Run)) (s : List Run),
      s ∈ (pollGo query timeout interval fuel k elapsed acc).snapshots →
        s ∈ acc ∨ ∃ j, s = query j := by
  intro fuel
  induction fuel with
  | zero =>
      intro k elapsed acc s hs
      simp [pollGo] at hs
      exact Or.inl hs
  | succ fuel ih =>
      intro k elapsed acc s hs
      by_cases h1 : elapsed < timeout
      · by_cases h2 : ((query k).filter isInProgress).length = 0
        · simp [pollGo, h1, h2] at hs
          rcases hs with h | h
          · exact Or.inl h
          · exact Or.inr ⟨k, h⟩
        · simp only [pollGo, if_pos h1, if_neg h2] at hs
          rcases ih (k + 1) (elapsed + interval) ((query k) :: acc) s hs with h | h
          · rcases List.mem_cons.mp h with h' | h'
            · exact Or.inr ⟨k, h'⟩
            · exact Or.inl h'
          · exact Or.inr h
      · simp [pollGo, h1] at hs
        exact Or.inl hs

/-- Fuel irrelevance: once the fuel covers the remaining time budget, adding
more fuel does not change the result, so the `fuel = 0` fallthrough of
`pollGo` is unreachable from `processRunningRuns` (where
`fuel = TIMEOUT + 1` and `INTERVAL ≥ 1`). -/
theorem pollGo_fuel_succ (query : Nat → List Run) (timeout interval : Nat) :
    ∀ (fuel k elapsed : Nat) (acc : List (List Run)),
      timeout ≤ elapsed + fuel * interval →
        pollGo query timeout interval (fuel + 1) k elapsed acc
          = pollGo query timeout interval fuel k elapsed acc := by
  intro fuel
  induction fuel with
  | zero =>
      intro k elapsed acc h
      have h1 : ¬ elapsed < timeout := by omega
      simp [pollGo, h1]
  | succ fuel ih =>
      intro k elapsed acc h
      by_cases h1 : elapsed < timeout
      · by_cases h2 : ((query k).filter isInProgress).length = 0
        · simp [pollGo, h1, h2]
        · have hstep : pollGo query timeout interval (fuel + 1 + 1) k elapsed acc
              = pollGo query timeout interval (fuel + 1) (k + 1) (elapsed + interval)
                  ((query k) :: acc) := by
            simp only [pollGo, if_pos h1, if_neg h2]
          rw [hstep]
          rw [Nat.succ_mul] at h
          have := ih (k + 1) (elapsed + interval) ((query k) :: acc) (by omega)
          rw [this]
          simp only [pollGo, if_pos h1, if_neg h2]
      · simp [pollGo, h1]

/-- When the first snapshot contains no in-progress run, the loop exits after
exactly one query without sleeping. -/
theorem processRunningRuns_first_empty (env : GhEnv) (limit : Nat)
    (h : ((querySnapshot env limit 0).filter isInProgress).length = 0) :
    processRunningRuns env limit
      = { snapshots := [querySnapshot env limit 0], elapsed := 0 } := by
  have h1 : (0 : Nat) < TIMEOUT := by decide
  show pollGo (querySnapshot env limit) TIMEOUT INTERVAL (TIMEOUT + 1) 0 0 [] = _
  rw [pollGo_step, if_pos h1, if_pos h]
  rfl

/-- The loop always issues at least one query. -/
theorem processRunningRuns_queries_pos (env : GhEnv) (limit : Nat) :
    1 ≤ (processRunningRuns env limit).snapshots.length := by
  have h1 : (0 : Nat) < TIMEOUT := by decide
  show 1 ≤ (pollGo (querySnapshot env limit) TIMEOUT INTERVAL (TIMEOUT + 1) 0 0
      []).snapshots.length
  rw [pollGo_step, if_pos h1]
  by_cases h2 : ((querySnapshot env limit 0).filter isInProgress).length = 0
  · rw [if_pos h2]
    simp
  · rw [if_neg h2]
    have h3 := pollGo_snapshots_length (querySnapshot env limit) TIMEOUT INTERVAL
      TIMEOUT 1 (0 + INTERVAL) ([querySnapshot env limit 0])
    simpa using h3

/-- C1: the claim (and the exit-code table of the spec, and the README
`gh-show-actions-log && ...` use cases) requires a distinct non-zero exit
code (64) when a run in the final snapshot has conclusion = failure.  The
code disagrees: in `envFail` the final snapshot is exactly one failed run,
yet after `processFailedRuns` the function `main` simply returns, so the
process exits 0 — the source contains no non-zero exit on this path. -/
theorem mainTail_failure_exit_zero :
    ((lastSnapshot envFail).filter (fun r => r.conclusion == some ("failure"))).length = 1
  ∧ (mainTail envFail).2 = 0 := by
  exact ⟨rfl, rfl⟩

/-- C2 counterexample: the claim says that after an empty first query the
system sleeps one fixed delay and retries once.  In `env20` (first query
empty) the loop exits with `elapsed = 0` — no sleep ever happens — after a
single loop query; the one further query is the unconditional summary
re-query, which `env21` (first query non-empty) receives just the same, so
no empty-triggered retry mechanism exists. -/
theorem pollLoop_no_retry_cex :
    (processRunningRuns env20 LIMIT).elapsed = 0
  ∧ (processRunningRuns env20 LIMIT).snapshots = [[]]
  ∧ (mainRunQueries env20).length = 2
  ∧ (mainRunQueries env21).length = 2 := by
  exact ⟨rfl, rfl, rfl, rfl⟩

/-- C2 amended: when the first run query returns an empty sequence the poll
loop exits immediately after that single query with zero sleeps (no delayed
retry); `main` then unconditionally issues exactly one further query — the
summary re-query — before concluding that no runs exist. -/
theorem pollLoop_first_empty (env : GhEnv)
    (h : querySnapshot env LIMIT 0 = []) :
    (processRunningRuns env LIMIT).elapsed = 0
  ∧ (processRunningRuns env LIMIT).snapshots = [querySnapshot env LIMIT 0]
  ∧ mainRunQueries env = [querySnapshot env LIMIT 0, querySnapshot env LIMIT 1] := by
  have hp := processRunningRuns_first_empty env LIMIT (by rw [h]; rfl)
  refine ⟨by rw [hp], by rw [hp], ?_⟩
  unfold mainRunQueries lastSnapshot
  rw [hp]
  rfl

/-- Witness for the amended C2 at the concrete empty environment. -/
theorem pollLoop_first_empty_w :
    (processRunningRuns env20 LIMIT).elapsed = 0
  ∧ (processRunningRuns env20 LIMIT).snapshots = [querySnapshot env20 LIMIT 0]
  ∧ mainRunQueries env20 = [querySnapshot env20 LIMIT 0, querySnapshot env20 LIMIT 1] :=
  pollLoop_first_empty env20 rfl

/-- C3 counterexample: the claim says the active-run predicate is true for
status = queued and that the loop keeps polling while a run is queued.  The
predicate of the code — status equals `in_progress` — is false on `queuedRun`, and
with a permanently queued run the loop stops after its very first query with
no sleep instead of polling. -/
theorem isActive_queued_cex :
    isInProgress queuedRun = false
  ∧ queuedRun.status = "queued"
  ∧ (processRunningRuns envQ LIMIT).snapshots.length = 1
  ∧ (processRunningRuns envQ LIMIT).elapsed = 0 := by
  exact ⟨rfl, rfl, rfl, rfl⟩

/-- C3 amended: the predicate driving the exit condition of the poll loop is
the comparison of status with `in_progress` alone — true exactly when status is in_progress —
and a first snapshot containing no in-progress run (for example, only queued
runs) ends the loop immediately after one query with no sleep. -/
theorem isInProgress_spec :
    (∀ r : Run, isInProgress r = true ↔ r.status = "in_progress")
  ∧ (∀ env : GhEnv, (∀ r ∈ querySnapshot env LIMIT 0, r.status ≠ "in_progress") →
      (processRunningRuns env LIMIT).elapsed = 0
      ∧ (processRunningRuns env LIMIT).snapshots.length = 1) := by
  constructor
  · intro r
    simp [isInProgress]
  · intro env h
    have hf : (querySnapshot env LIMIT 0).filter isInProgress = [] := by
      rw [List.filter_eq_nil_iff]
      intro r hr
      simp [isInProgress]
      exact h r hr
    have hp := processRunningRuns_first_empty env LIMIT (by rw [hf]; rfl)
    rw [hp]
    exact ⟨rfl, rfl⟩

/-- Witness for the amended C3 at the concrete queued-run environment. -/
theorem isInProgress_spec_w :
    (isInProgress queuedRun = true ↔ queuedRun.status = "in_progress")
  ∧ (processRunningRuns envQ LIMIT).elapsed = 0 :=
  ⟨isInProgress_spec.1 queuedRun, (isInProgress_spec.2 envQ (by decide)).1⟩

/-- C4 counterexample: the claim says status queued takes priority over
conclusion (conclusion consulted only when status = completed) and that a
QUEUED display state exists.  The code consults the conclusion for a queued
run — `formatStatus` of `queued` and `success` renders SUCCESS — and a queued run
without a conclusion renders UNKNOWN; no QUEUED display state exists. -/
theorem formatStatus_queued_cex :
    formatStatus ("queued") (some ("success")) = colors.green ++ "SUCCESS" ++ colors.reset
  ∧ formatStatus ("queued") none = "UNKNOWN" := by
  exact ⟨rfl, rfl⟩

/-- C4 amended: for every (status, conclusion) pair, `formatStatus` returns
exactly one of the six display states RUNNING, SUCCESS, FAILURE, CANCELLED,
SKIPPED, UNKNOWN (there is no QUEUED state), never raising an error; only
status = in_progress takes priority over conclusion — for every other
status, including queued, the conclusion switch alone decides, with
unrecognized combinations mapping to UNKNOWN. -/
theorem formatStatus_spec (status : String) (conclusion : Option String) :
    (formatStatus status conclusion = colors.blue ++ "RUNNING" ++ colors.reset
     ∨ formatStatus status conclusion = colors.green ++ "SUCCESS" ++ colors.reset
     ∨ formatStatus status conclusion = colors.red ++ "FAILURE" ++ colors.reset
     ∨ formatStatus status conclusion = colors.yellow ++ "CANCELLED" ++ colors.reset
     ∨ formatStatus status conclusion = colors.dim ++ "SKIPPED" ++ colors.reset
     ∨ formatStatus status conclusion = "UNKNOWN")
  ∧ (status ≠ "in_progress" → formatStatus status conclusion = conclusionSwitch conclusion) := by
  constructor
  · unfold formatStatus
    split
    · exact Or.inl rfl
    · unfold conclusionSwitch
      split
      · exact Or.inr (Or.inl rfl)
      · split
        · exact Or.inr (Or.inr (Or.inl rfl))
        · split
          · exact Or.inr (Or.inr (Or.inr (Or.inl rfl)))
          · split
            · exact Or.inr (Or.inr (Or.inr (Or.inr (Or.inl rfl))))
            · exact Or.inr (Or.inr (Or.inr (Or.inr (Or.inr rfl))))
  · intro h
    unfold formatStatus
    rw [if_neg h]

/-- Witness for the amended C4 at a queued status with a skipped conclusion. -/
theorem formatStatus_spec_w :
    formatStatus ("queued") (some ("skipped")) = conclusionSwitch (some ("skipped")) :=
  (formatStatus_spec ("queued") (some ("skipped"))).2 (by decide)

/-- A string with final character `s` is never the sentinel "N/A". -/
theorem append_s_ne_NA (x : String) : x ++ "s" ≠ "N/A" := by
  intro h
  have h2 : x.data ++ ['s'] = ['N', '/'] ++ ['A'] := by
    have h3 := congrArg String.data h
    rw [String.data_append] at h3
    exact h3
  have h4 := (List.append_inj' h2 rfl).2
  simp at h4

/-- C5 counterexample: the claim says an empty-string log (retrieval
succeeded, zero content) is distinct from absence and is emitted as content,
not as a warning.  In `envE5` the log command succeeds with empty output, yet
the JS-truthiness test `if (logs)` sends it down the warning branch: the job
trace carries the "Could not fetch logs" warning and no content line. -/
theorem emptyLog_warning_cex :
    envE5.jobLogExec jobE.databaseId = ExecCommandResult.ok ("")
  ∧ processJob envE5 jobE =
      [OutEvent.h3 ("Failed Job: build (id: 42)"), OutEvent.log ("`````"),
       OutEvent.warning ("Could not fetch logs for job 42"),
       OutEvent.log ("`````"), OutEvent.log ""] := by
  exact ⟨rfl, rfl⟩

/-- C5 amended: an absent (`null`) log yields a warning naming the job and no
content; an empty-string log is NOT distinct from absence — JS truthiness
sends it down the same warning branch; only a non-empty log is emitted as
content (with no warning). -/
theorem processJob_log_spec (env : GhEnv) (job : Job) :
    (∀ c : Nat, env.jobLogExec job.databaseId = ExecCommandResult.err c →
        processJob env job =
          [OutEvent.h3 ("Failed Job: " ++ job.name ++ " (id: " ++ toString job.databaseId ++ ")"),
           OutEvent.log ("`````"),
           OutEvent.warning ("Could not fetch logs for job " ++ toString job.databaseId),
           OutEvent.log ("`````"), OutEvent.log ""])
  ∧ (env.jobLogExec job.databaseId = ExecCommandResult.ok ("") →
        processJob env job =
          [OutEvent.h3 ("Failed Job: " ++ job.name ++ " (id: " ++ toString job.databaseId ++ ")"),
           OutEvent.log ("`````"),
           OutEvent.warning ("Could not fetch logs for job " ++ toString job.databaseId),
           OutEvent.log ("`````"), OutEvent.log ""])
  ∧ (∀ s : String, s ≠ "" → env.jobLogExec job.databaseId = ExecCommandResult.ok s →
        processJob env job =
          [OutEvent.h3 ("Failed Job: " ++ job.name ++ " (id: " ++ toString job.databaseId ++ ")"),
           OutEvent.log ("`````"),
           OutEvent.log s, OutEvent.log "",
           OutEvent.log ("`````"), OutEvent.log ""]) := by
  refine ⟨?_, ?_, ?_⟩
  · intro c hc
    simp [processJob, hc, getJobLogsFromRepo, logBlock]
  · intro hc
    simp [processJob, hc, getJobLogsFromRepo, logBlock]
  · intro s hs hc
    simp [processJob, hc, getJobLogsFromRepo, logBlock, hs]

/-- Witness for the amended C5: the empty-output case at `envE5`. -/
theorem processJob_log_spec_w :
    processJob envE5 jobE =
      [OutEvent.h3 ("Failed Job: " ++ jobE.name ++ " (id: " ++ toString jobE.databaseId ++ ")"),
       OutEvent.log ("`````"),
       OutEvent.warning ("Could not fetch logs for job " ++ toString jobE.databaseId),
       OutEvent.log ("`````"), OutEvent.log ""] :=
  (processJob_log_spec envE5 jobE).2.1 rfl

/-- C6: the aggregator never lets one failure abort its siblings — the trace
of a run list is the own trace of the run followed by the untouched traces of the
remaining runs; a run with no failed jobs contributes a warning (and the
following runs are still processed, by the first conjunct); the job loop
likewise prepends the trace of one job to the untouched traces of the remaining
jobs; and a job whose log command fails still contributes its own warning. -/
theorem processFailedRuns_isolation (env : GhEnv) :
    (∀ (r : Run) (rest : List Run),
        processFailedRuns env (r :: rest) = processRun env r ++ processFailedRuns env rest)
  ∧ (∀ run : Run, env.failedJobs run.databaseId = [] →
        OutEvent.warning ("No failed jobs found for this run.") ∈ processRun env run)
  ∧ (∀ (j : Job) (js : List Job),
        jobsTrace env (j :: js) = processJob env j ++ jobsTrace env js)
  ∧ (∀ (j : Job) (c : Nat), env.jobLogExec j.databaseId = ExecCommandResult.err c →
        OutEvent.warning ("Could not fetch logs for job " ++ toString j.databaseId)
          ∈ processJob env j) := by
  refine ⟨fun r rest => rfl, ?_, fun j js => rfl, ?_⟩
  · intro run h
    simp [processRun, h]
  · intro j c h
    simp [processJob, h, getJobLogsFromRepo, logBlock]

/-- Witness for C6: a two-run list over `envW6`, whose failed-job queries are
empty and whose log commands fail. -/
theorem processFailedRuns_isolation_w :
    processFailedRuns envW6 [runW6, runW6]
      = processRun envW6 runW6 ++ processFailedRuns envW6 [runW6]
  ∧ OutEvent.warning ("No failed jobs found for this run.") ∈ processRun envW6 runW6
  ∧ OutEvent.warning ("Could not fetch logs for job " ++ toString jobW6.databaseId)
      ∈ processJob envW6 jobW6 :=
  ⟨(processFailedRuns_isolation envW6).1 runW6 [runW6],
   (processFailedRuns_isolation envW6).2.1 runW6 rfl,
   (processFailedRuns_isolation envW6).2.2.2 jobW6 2 rfl⟩

/-- C7 counterexample: the claim says a failed run-list query is fatal and is
not treated the same as the valid empty-sequence result.  The code maps a
failed command to `[]`, the very value a successful empty listing produces:
the two cases are indistinguishable and execution continues normally. -/
theorem listAllRuns_err_cex :
    listAllRuns (fun _ => runDummy) (ExecCommandResult.err 1) = []
  ∧ listAllRuns (fun _ => runDummy) (ExecCommandResult.err 1)
      = listAllRuns (fun _ => runDummy) (ExecCommandResult.ok ("")) := by
  exact ⟨rfl, rfl⟩

/-- C7 amended: a query failure (transport/auth error) when listing the runs
for a commit is locally recovered, not fatal: `listAllRuns` returns the empty
list, exactly the value the valid "commit has no runs yet" result produces,
so callers treat the two cases identically. -/
theorem listAllRuns_err_recovered (parseLine : String → Run) (c : Nat) :
    listAllRuns parseLine (ExecCommandResult.err c) = []
  ∧ listAllRuns parseLine (ExecCommandResult.err c)
      = listAllRuns parseLine (ExecCommandResult.ok ("")) := by
  exact ⟨rfl, rfl⟩

/-- C8: for every environment — including one reporting active runs forever —
the accumulated simulated time of the poll loop stays within TIMEOUT + INTERVAL,
at least one query is issued, the timeout warning fires exactly when the
accumulated time reached the ceiling, and the downstream trace still renders
the summary of the last-known snapshot rather than aborting. -/
theorem pollLoop_bounded (env : GhEnv) :
    (processRunningRuns env LIMIT).elapsed ≤ TIMEOUT + INTERVAL
  ∧ 1 ≤ (processRunningRuns env LIMIT).snapshots.length
  ∧ (timeoutWarningEmitted env LIMIT = true ↔ TIMEOUT ≤ (processRunningRuns env LIMIT).elapsed)
  ∧ (∃ pre post, (mainTail env).1
        = pre ++ displayRunSummary env.getTime (lastSnapshot env) ++ post) := by
  refine ⟨?_, processRunningRuns_queries_pos env LIMIT, ?_, ?_⟩
  · exact pollGo_elapsed_le (querySnapshot env LIMIT) TIMEOUT INTERVAL (TIMEOUT + 1) 0 0 []
      (Nat.zero_le _)
  · simp [timeoutWarningEmitted]
  · by_cases hf : (lastSnapshot env).filter (fun r => r.conclusion == some ("failure")) = []
    · refine ⟨(if timeoutWarningEmitted env LIMIT then
        [OutEvent.warning ("Timeout reached. Workflow may still be running.")] else []), [], ?_⟩
      simp [mainTail, hf]
    · refine ⟨(if timeoutWarningEmitted env LIMIT then
        [OutEvent.warning ("Timeout reached. Workflow may still be running.")] else []),
        processFailedRuns env
          ((lastSnapshot env).filter (fun r => r.conclusion == some ("failure"))), ?_⟩
      simp [mainTail, hf, List.append_assoc]

/-- Witness for C8 at the always-in-progress environment: the ceiling is hit,
the warning fires, and the elapsed time stays within the bound. -/
theorem pollLoop_bounded_w :
    (processRunningRuns envT LIMIT).elapsed ≤ TIMEOUT + INTERVAL
  ∧ timeoutWarningEmitted envT LIMIT = true :=
  ⟨(pollLoop_bounded envT).1, (pollLoop_bounded envT).2.2.1.mpr (by decide)⟩

/-- C9 counterexample: the claim says "N/A" is returned if and only if a
timestamp is absent.  An empty-string timestamp is present (not `null`), yet
the JS-falsy guard `if (!startedAt || !updatedAt)` makes `formatDuration`
return "N/A" for it. -/
theorem formatDuration_empty_cex :
    formatDuration (fun _ => 0) (some ("")) (some ("x")) = "N/A"
  ∧ (some ("") : Option String) ≠ none
  ∧ (some ("x") : Option String) ≠ none := by
  refine ⟨rfl, ?_, ?_⟩ <;> simp

/-- C9 amended: `formatDuration` returns "N/A" iff either timestamp is absent
or the empty string (JS falsiness); when both are present and non-empty it
returns the millisecond difference rounded to seconds with `Math.round`
(half toward positive infinity) and the suffix `s`; and repeated calls with
the same inputs return the same text. -/
theorem formatDuration_spec (g : String → Int) (a b : Option String) :
    (formatDuration g a b = "N/A" ↔ (jsTruthy a = false ∨ jsTruthy b = false))
  ∧ (∀ s u : String, s ≠ "" → u ≠ "" →
      formatDuration g (some s) (some u)
        = toString (Int.fdiv (g u - g s + 500) 1000) ++ "s")
  ∧ formatDuration g a b = formatDuration g a b := by
  refine ⟨?_, ?_, rfl⟩
  · rcases a with _ | s <;> rcases b with _ | u
    · simp [formatDuration, jsTruthy]
    · simp [formatDuration, jsTruthy]
    · simp [formatDuration, jsTruthy]
    · by_cases h : s = "" ∨ u = ""
      · rw [formatDuration, if_pos h]
        simp only [jsTruthy]
        rcases h with h | h <;> simp [h]
      · rw [formatDuration, if_neg h]
        push_neg at h
        constructor
        · intro hn
          exact absurd hn (append_s_ne_NA _)
        · rintro (h1 | h2)
          · simp [jsTruthy, h.1] at h1
          · simp [jsTruthy, h.2] at h2
  · intro s u hs hu
    rw [formatDuration, if_neg (by tauto)]

/-- Witness for the amended C9 at concrete timestamps 0ms and 1500ms:
Math.round(1.5s) renders "2s". -/
theorem formatDuration_spec_w :
    formatDuration (fun t => if t = "b" then 1500 else 0) (some ("a")) (some ("b")) = "2s" := by
  have h := (formatDuration_spec (fun t => if t = "b" then 1500 else 0)
    (some ("a")) (some ("b"))).2.1 "a" "b" (by decide) (by decide)
  simpa using h

/-- C10: every run-list query `main` issues — the queries of the poll loop and the
final summary query — passes the constant LIMIT = 1, so every snapshot the
program polls, summarises or partitions contains at most one run, however
many runs the commit has remotely. -/
theorem mainRunQueries_limit (env : GhEnv) :
    LIMIT = 1 ∧ ∀ s ∈ mainRunQueries env, s.length ≤ 1 := by
  refine ⟨rfl, ?_⟩
  intro s hs
  unfold mainRunQueries at hs
  rcases List.mem_append.mp hs with h | h
  · unfold processRunningRuns at h
    rcases pollGo_snapshots_mem (querySnapshot env LIMIT) TIMEOUT INTERVAL (TIMEOUT + 1)
      0 0 [] s h with h' | ⟨j, rfl⟩
    · simp at h'
    · simp only [querySnapshot, ghRunList, LIMIT]
      simp [List.length_take]
  · simp only [List.mem_singleton] at h
    subst h
    simp only [lastSnapshot, querySnapshot, ghRunList, LIMIT]
    simp [List.length_take]

/-- Witness for C10: the truncated snapshot of the two-run environment is a
member of the query list and respects the bound. -/
theorem mainRunQueries_limit_w : ([runA10] : List Run).length ≤ 1 :=
  (mainRunQueries_limit envW10).2 [runA10] (by decide)

end GhShowActionsLog
